import Mathlib

/-!
Verification development for the environmental risk assessment backend
(src/app.py).  The analysis functions of the backend are embedded as
executable Lean definitions over exact rational numbers; the SQLite store
is embedded as a list of rows in insertion order (the query
`ORDER BY id DESC` is list reversal).  Numeric sensor values are `Option ℚ`
(SQL NULL is `none`).
-/

namespace AirWater

/-- Insight string from src/app.py line 44. -/
def pm25CriticalMsg : String :=
  "PM2.5 has reached a critical level. Prolonged exposure can cause breathing stress and eye irritation."

/-- Insight string from src/app.py line 49. -/
def pm25ElevatedMsg : String :=
  "PM2.5 level is elevated. Long exposure may lead to fatigue or mild respiratory discomfort."

/-- Insight string from src/app.py line 56. -/
def gasMsg : String :=
  "Toxic gas concentration detected. Ventilation is recommended."

/-- Insight string from src/app.py line 62. -/
def phMsg : String :=
  "Water quality is outside the safe pH range. Consumption without treatment is not advised."

/-- The dictionary passed to `ai_risk_analysis` by `get_latest`
(src/app.py lines 205-209): keys pm25, mq135, ph are always present,
each value possibly null. -/
structure SensorInput where
  pm25 : Option ℚ
  mq135 : Option ℚ
  ph : Option ℚ
deriving Repr, DecidableEq

/-- Threshold cascade of `ai_risk_analysis` (src/app.py lines 38-65) for a
non-null pm25 value.  Each step carries the (risk, insights) pair forward,
exactly as the Python mutates the two locals in source order: the pm25
branches set DANGER or WARNING, then the mq135 branch and the ph branch
each assign WARNING unconditionally when they fire (overwriting any
earlier DANGER). -/
def ai_risk_core (pm25 : ℚ) (mq135 ph : Option ℚ) : String × List String :=
  let s0 : String × List String :=
    if pm25 > 150 then ("DANGER", [pm25CriticalMsg])
    else if pm25 > 80 then ("WARNING", [pm25ElevatedMsg])
    else ("SAFE", [])
  let s1 : String × List String :=
    match mq135 with
    | some m => if m > 1.2 then ("WARNING", s0.2 ++ [gasMsg]) else s0
    | none => s0
  let s2 : String × List String :=
    match ph with
    | some x => if x < 6.5 ∨ x > 8.5 then ("WARNING", s1.2 ++ [phMsg]) else s1
    | none => s1
  s2

/-- Embedding of `ai_risk_analysis` (src/app.py lines 33-65).  The Python
function as committed cannot execute: line 36 reads the undefined name
`sensor`, the name `pm25` is used at line 41 but never bound, and line 52
is mis-indented, which is a syntax error that prevents the module from
importing at all.  This definition embeds the evident intended control
flow (pm25, mq135 and ph read from the input dictionary, the four
threshold tests applied in source order) while keeping the unguarded
`pm25 > 150` comparison of line 41: a null pm25 raises a TypeError in
Python 3, embedded here as `Except.error`. -/
def ai_risk_analysis (data : SensorInput) : Except String (String × List String) :=
  match data.pm25 with
  | none => Except.error "TypeError: NoneType comparison at pm25 > 150"
  | some p => Except.ok (ai_risk_core p data.mq135 data.ph)

/-- Embedding of `detect_anomaly` (src/app.py lines 68-72): false when the
history has fewer than 3 points or the current value is null, otherwise
true iff current > mean * 1.5. -/
def detect_anomaly (current : Option ℚ) (history : List ℚ) : Bool :=
  if history.length < 3 then false
  else
    match current with
    | none => false
    | some c => decide (c > history.sum / (history.length : ℚ) * 1.5)

/-- Embedding of `predict_trend` (src/app.py lines 75-82).  Python
negative indexing values[-k] is `getD (length - k) 0`; the default is
never used because the length guard has already passed. -/
def predict_trend (values : List ℚ) : String :=
  if values.length < 3 then "STABLE"
  else
    let v1 := values.getD (values.length - 1) 0
    let v2 := values.getD (values.length - 2) 0
    let v3 := values.getD (values.length - 3) 0
    if v1 > v2 ∧ v2 > v3 then "INCREASING"
    else if v1 < v2 ∧ v2 < v3 then "DECREASING"
    else "STABLE"

/-- The exit guidance payload (src/app.py lines 85-100). -/
structure Guidance where
  message : String
  priority : String
deriving Repr, DecidableEq

/-- Embedding of `ai_exit_guidance` (src/app.py lines 85-100). -/
def ai_exit_guidance (risk : String) : Guidance :=
  if risk = "DANGER" then
    { message := "Evacuate immediately via Exit-B (upwind side). Avoid enclosed and low-ventilation zones."
      priority := "HIGH" }
  else if risk = "WARNING" then
    { message := "Reduce exposure. Move to well-ventilated areas and avoid emission zones."
      priority := "MEDIUM" }
  else
    { message := "No evacuation required. Environment is stable."
      priority := "LOW" }

/-- The health and food advice payload (src/app.py lines 103-154). -/
structure Advice where
  workers : List String
  nearby_homes : List String
  officers : List String
deriving Repr, DecidableEq

/-- Embedding of `ai_health_and_food_advice` (src/app.py lines 103-154). -/
def ai_health_and_food_advice (risk : String) : Advice :=
  if risk = "DANGER" then
    { workers := ["Drink warm water frequently", "Consume Vitamin-C rich fruits",
                  "Avoid heavy physical work", "Wear N95 or industrial masks"]
      nearby_homes := ["Keep doors and windows closed", "Avoid outdoor activities",
                       "Use boiled or filtered water"]
      officers := ["Activate ventilation systems", "Restrict access to high-risk zones",
                   "Initiate shift rotation if needed"] }
  else if risk = "WARNING" then
    { workers := ["Increase fluid intake", "Prefer light meals", "Limit exposure duration"]
      nearby_homes := ["Limit outdoor exposure", "Ensure clean drinking water"]
      officers := ["Monitor pollution trends", "Prepare emergency response"] }
  else
    { workers := ["Maintain balanced diet", "Stay hydrated", "Follow safety norms"]
      nearby_homes := ["Normal activities can continue"]
      officers := ["Continue routine monitoring"] }

/-- One row of the `sensor_data` table (src/app.py lines 15-25): five
nullable REAL columns and a timestamp.  The timestamp is embedded as
seconds (`Nat`); the autoincrement id is the position in the store list. -/
structure Row where
  pm25 : Option ℚ
  mq135 : Option ℚ
  ph : Option ℚ
  heartRate : Option ℚ
  spo2 : Option ℚ
  time : Nat
deriving Repr, DecidableEq

/-- The store in insertion order, oldest first.  `ORDER BY id DESC` is
`List.reverse`. -/
abbrev Store := List Row

/-- The pm25 history built by `get_latest` (src/app.py lines 196-197):
`SELECT pm25 FROM sensor_data ORDER BY id DESC LIMIT 5` followed by a
comprehension dropping NULLs.  Note there is no reversal: the list is
newest first. -/
def pm_history (store : Store) : List ℚ :=
  (store.reverse.take 5).filterMap (fun r => r.pm25)

/-- The `sensor_data` object of the `/api/latest` response
(src/app.py lines 213-219). -/
structure SensorData where
  pm25 : Option ℚ
  mq135 : Option ℚ
  ph : Option ℚ
  heartRate : Option ℚ
  spo2 : Option ℚ
deriving Repr, DecidableEq

/-- The `ai` object of the `/api/latest` response (src/app.py lines 220-227). -/
structure AiBlock where
  risk_level : String
  ai_insights : List String
  anomaly_detected : Bool
  trend : String
  exit_guidance : Guidance
  health_and_food_advice : Advice
deriving Repr, DecidableEq

/-- The full report of the `/api/latest` response (src/app.py lines 211-228). -/
structure LatestResponse where
  timestamp : Nat
  sensor_data : SensorData
  ai : AiBlock
deriving Repr, DecidableEq

/-- The two response shapes of `/api/latest`: the no-data message of
line 201, or the full report. -/
inductive Response where
  | noData (message : String)
  | report (r : LatestResponse)
deriving Repr, DecidableEq

/-- Embedding of the `get_latest` handler (src/app.py lines 188-230).
`row` is the newest row; `pm_history` is the newest-first non-null pm25
window; the risk call can fail (null pm25, see `ai_risk_analysis`), which
surfaces as an HTTP 500 and is embedded as `Except.error`. -/
def get_latest (store : Store) : Except String Response :=
  match store.reverse with
  | [] => Except.ok (Response.noData "No data available")
  | row :: _ =>
    match ai_risk_analysis { pm25 := row.pm25, mq135 := row.mq135, ph := row.ph } with
    | Except.error e => Except.error e
    | Except.ok res =>
      Except.ok (Response.report
        { timestamp := row.time
          sensor_data := { pm25 := row.pm25, mq135 := row.mq135, ph := row.ph,
                           heartRate := row.heartRate, spo2 := row.spo2 }
          ai := { risk_level := res.1
                  ai_insights := res.2
                  anomaly_detected := detect_anomaly row.pm25 (pm_history store)
                  trend := predict_trend (pm_history store)
                  exit_guidance := ai_exit_guidance res.1
                  health_and_food_advice := ai_health_and_food_advice res.1 } })

/-- Projection: the risk level of a response, `none` on the no-data shape. -/
def respRisk : Response → Option String
  | Response.noData _ => none
  | Response.report r => some r.ai.risk_level

/-- Projection: the insights list of a response. -/
def respInsights : Response → Option (List String)
  | Response.noData _ => none
  | Response.report r => some r.ai.ai_insights

/-- Projection: the anomaly flag of a response. -/
def respAnomaly : Response → Option Bool
  | Response.noData _ => none
  | Response.report r => some r.ai.anomaly_detected

/-- Projection: the exit guidance of a response. -/
def respGuidance : Response → Option Guidance
  | Response.noData _ => none
  | Response.report r => some r.ai.exit_guidance

/-- Projection: the sensor snapshot of a response. -/
def respSensor : Response → Option SensorData
  | Response.noData _ => none
  | Response.report r => some r.sensor_data

/-- The order SAFE < WARNING < DANGER of the spec, as a rank. -/
def tierRank (risk : String) : Nat :=
  if risk = "DANGER" then 2 else if risk = "WARNING" then 1 else 0

/-- Follows the spec (section 4.2/4.3): the heartbeat timestamp is the
most recent reading timestamp.  The code returns it in the response
(src/app.py line 212) but never compares it with the evaluation time. -/
def heartbeat (store : Store) : Option Nat :=
  store.getLast?.map Row.time

/-- Whether the mq135 branch of the classifier fires (src/app.py line 52). -/
def gasTrig : Option ℚ → Bool
  | some m => decide (m > 1.2)
  | none => false

/-- Whether the ph branch of the classifier fires (src/app.py line 59). -/
def phTrig : Option ℚ → Bool
  | some x => decide (x < 6.5 ∨ x > 8.5)
  | none => false

/-- Follows the spec words (section 4.6 scoring table, restricted to the
channels the snapshot actually carries): pm25 over 150 gives 3 points,
over 80 gives 1; gas over its threshold gives 2; ph outside 6.5 to 8.5
gives 1.  Written for comparison with `ai_risk_analysis`. -/
def spec_score (d : SensorInput) : Nat :=
  (match d.pm25 with
   | some p => if p > 150 then 3 else if p > 80 then 1 else 0
   | none => 0) +
  (match d.mq135 with
   | some m => if m > 1.2 then 2 else 0
   | none => 0) +
  (match d.ph with
   | some x => if x < 6.5 ∨ x > 8.5 then 1 else 0
   | none => 0)

/-- Follows the spec words (section 4.6): score of 3 or more is DANGER,
1 or more is WARNING, else SAFE.  Written for comparison with
`ai_risk_analysis`. -/
def spec_tier (d : SensorInput) : String :=
  if 3 ≤ spec_score d then "DANGER"
  else if 1 ≤ spec_score d then "WARNING"
  else "SAFE"

/-- Follows the spec words (section 4.1): the oldest-first history the
spec asks for, namely the reversal of the newest-first query result.
Written for comparison with `pm_history`. -/
def spec_pm_history_oldest_first (store : Store) : List ℚ :=
  ((store.reverse.take 5).filterMap (fun r => r.pm25)).reverse

/-- Follows the spec words (section 4.5): the trailing window up to but
not including the value under test, that is, the non-null pm25 values of
the five readings preceding the newest one.  Written for comparison with
`pm_history`. -/
def spec_pm_history_excl (store : Store) : List ℚ :=
  (store.dropLast.reverse.take 5).filterMap (fun r => r.pm25)

/-- Follows the spec words (section 4.2): the most recent non-null value
of a channel, or the channel default.  Written for comparison with the
snapshot `get_latest` actually builds. -/
def spec_held (store : Store) (f : Row → Option ℚ) (dflt : ℚ) : ℚ :=
  match (store.reverse.filterMap f).head? with
  | some v => v
  | none => dflt

/-- A single all-safe reading at time 0: pm25 10, mq135 1, ph 7. -/
def exRowSafe : Row :=
  { pm25 := some 10, mq135 := some 1, ph := some 7,
    heartRate := none, spo2 := none, time := 0 }

/-- Store for the staleness scenario: one safe reading at time 0. -/
def exStoreC3 : Store := [exRowSafe]

/-- Store for the snapshot scenario: an older reading with ph 6, then a
newest reading whose ph is null. -/
def exStoreC4 : Store :=
  [{ pm25 := some 10, mq135 := none, ph := some 6, heartRate := none, spo2 := none, time := 0 },
   { pm25 := some 20, mq135 := none, ph := none, heartRate := none, spo2 := none, time := 10 }]

/-- Store for the history-order scenario: pm25 readings 1, 2, 3 in time
order. -/
def exStoreC7 : Store :=
  [{ pm25 := some 1, mq135 := none, ph := none, heartRate := none, spo2 := none, time := 0 },
   { pm25 := some 2, mq135 := none, ph := none, heartRate := none, spo2 := none, time := 1 },
   { pm25 := some 3, mq135 := none, ph := none, heartRate := none, spo2 := none, time := 2 }]

/-- Store for the anomaly-baseline scenario: pm25 readings 10, 10, 10,
then 16. -/
def exStoreC8 : Store :=
  [{ pm25 := some 10, mq135 := none, ph := none, heartRate := none, spo2 := none, time := 0 },
   { pm25 := some 10, mq135 := none, ph := none, heartRate := none, spo2 := none, time := 1 },
   { pm25 := some 10, mq135 := none, ph := none, heartRate := none, spo2 := none, time := 2 },
   { pm25 := some 16, mq135 := none, ph := none, heartRate := none, spo2 := none, time := 3 }]

/-- Snapshot with pm25 100, mq135 2, ph 5: every channel in a scoring
bracket. -/
def exSnapC2 : SensorInput := { pm25 := some 100, mq135 := some 2, ph := some 5 }

theorem ai_risk_core_fst_mem (p : ℚ) (m h : Option ℚ) :
    (ai_risk_core p m h).1 = "SAFE" ∨ (ai_risk_core p m h).1 = "WARNING" ∨
      (ai_risk_core p m h).1 = "DANGER" := by
  cases m <;> cases h <;> simp only [ai_risk_core] <;> split_ifs <;> simp

theorem ai_risk_core_fst_eq (p : ℚ) (m h : Option ℚ) :
    (ai_risk_core p m h).1 =
      if gasTrig m || phTrig h then "WARNING"
      else if p > 150 then "DANGER"
      else if p > 80 then "WARNING"
      else "SAFE" := by
  rcases m with _ | a <;> rcases h with _ | b
  · simp only [ai_risk_core, gasTrig, phTrig, Bool.or_false]
    split_ifs <;> simp_all
  · by_cases hb : b < 6.5 ∨ b > 8.5 <;>
      simp only [ai_risk_core, gasTrig, phTrig, hb, Bool.false_or, if_pos, if_neg,
        not_false_eq_true, if_true, if_false,
        Bool.true_or, Bool.or_true, decide_eq_true_eq] <;>
      split_ifs <;> simp_all
  · by_cases ha : a > 1.2 <;>
      simp only [ai_risk_core, gasTrig, phTrig, ha, Bool.or_false, if_pos, if_neg,
        not_false_eq_true, if_true, if_false,
        decide_eq_true_eq] <;>
      split_ifs <;> simp_all
  · by_cases ha : a > 1.2 <;> by_cases hb : b < 6.5 ∨ b > 8.5 <;>
      simp only [ai_risk_core, gasTrig, phTrig, ha, hb, if_pos, if_neg,
        not_false_eq_true, if_true, if_false,
        Bool.true_or, Bool.or_true, Bool.or_false, Bool.false_or,
        decide_eq_true_eq] <;>
      split_ifs <;> simp_all

theorem get_latest_eq (store : Store) (row : Row) (rest : List Row)
    (hrev : store.reverse = row :: rest) (v : ℚ) (hpm : row.pm25 = some v) :
    get_latest store = Except.ok (Response.report
      { timestamp := row.time
        sensor_data := { pm25 := row.pm25, mq135 := row.mq135, ph := row.ph,
                         heartRate := row.heartRate, spo2 := row.spo2 }
        ai := { risk_level := (ai_risk_core v row.mq135 row.ph).1
                ai_insights := (ai_risk_core v row.mq135 row.ph).2
                anomaly_detected := detect_anomaly row.pm25 (pm_history store)
                trend := predict_trend (pm_history store)
                exit_guidance := ai_exit_guidance (ai_risk_core v row.mq135 row.ph).1
                health_and_food_advice :=
                  ai_health_and_food_advice (ai_risk_core v row.mq135 row.ph).1 } }) := by
  unfold get_latest
  rw [hrev]
  simp [ai_risk_analysis, hpm]

/-- C1: with pm25 = 200 (its highest bracket) and ph = 7 held fixed, the
classifier returns DANGER while mq135 = 1.0 is in its low bracket, but
WARNING once mq135 moves to its high bracket 2.0 > 1.2, because the mq135
branch assigns WARNING unconditionally: moving one channel into a higher
severity bracket lowers the tier, contradicting the claimed monotonicity. -/
theorem C1_downgrade_eval :
    ai_risk_analysis { pm25 := some 200, mq135 := some 1, ph := some 7 } =
      Except.ok ("DANGER", [pm25CriticalMsg]) ∧
    ai_risk_analysis { pm25 := some 200, mq135 := some 2, ph := some 7 } =
      Except.ok ("WARNING", [pm25CriticalMsg, gasMsg]) ∧
    tierRank "WARNING" < tierRank "DANGER" := by
  exact ⟨by with_unfolding_all rfl, by with_unfolding_all rfl, by decide⟩

/-- C2 counterexample: at pm25 = 100, mq135 = 2, ph = 5 the spec additive
score is 1 + 2 + 1 = 4, so the spec maps the snapshot to DANGER, but the
code returns WARNING: the classifier does not implement the additive
score-to-tier mapping. -/
theorem C2_counterexample :
    spec_tier exSnapC2 = "DANGER" ∧
    (ai_risk_analysis exSnapC2).map Prod.fst = Except.ok "WARNING" ∧
    (("WARNING" : String) == "DANGER") = false := by
  exact ⟨by with_unfolding_all rfl, by with_unfolding_all rfl, by decide⟩

/-- C2 (amended): the classifier computes no score; the tier is assigned
sequentially, so whenever the mq135 branch or the ph branch fires the
result is WARNING (even over pm25 > 150), otherwise DANGER iff pm25 > 150,
WARNING iff pm25 > 80, else SAFE. -/
theorem C2_sequential_tiers (p : ℚ) (m h : Option ℚ) :
    (ai_risk_analysis { pm25 := some p, mq135 := m, ph := h }).map Prod.fst =
      Except.ok (if gasTrig m || phTrig h then "WARNING"
                 else if p > 150 then "DANGER"
                 else if p > 80 then "WARNING"
                 else "SAFE") := by
  simp [ai_risk_analysis, Except.map, ai_risk_core_fst_eq]

/-- C3 counterexample: a store whose single reading is at time 0,
evaluated at now = 120 (so now minus heartbeat is 120 >= 60), still
yields risk SAFE with the ordinary SAFE guidance: no DISCONNECTED status
or advisory exists in the code. -/
theorem C3_counterexample :
    heartbeat exStoreC3 = some 0 ∧
    60 ≤ 120 - (0 : Nat) ∧
    (get_latest exStoreC3).map respRisk = Except.ok (some "SAFE") ∧
    (get_latest exStoreC3).map respGuidance =
      Except.ok (some (ai_exit_guidance "SAFE")) ∧
    (("SAFE" : String) == "DISCONNECTED") = false := by
  exact ⟨by with_unfolding_all rfl, by decide, by with_unfolding_all rfl,
    by with_unfolding_all rfl, by decide⟩

/-- C4 counterexample: in a store whose older reading has ph 6 and whose
newest reading has null ph, the spec says the snapshot holds ph = 6 (most
recent non-null value), but the response snapshot carries ph = null: the
code takes the newest row verbatim, with no carry-forward and no
defaults. -/
theorem C4_counterexample :
    spec_held exStoreC4 (fun r => r.ph) 7 = 6 ∧
    (get_latest exStoreC4).map respSensor =
      Except.ok (some { pm25 := some 20, mq135 := none, ph := none,
                        heartRate := none, spo2 := none }) ∧
    ((none : Option ℚ) == some 6) = false := by
  exact ⟨by with_unfolding_all rfl, by with_unfolding_all rfl, rfl⟩

/-- C7 counterexample: with pm25 readings 1, 2, 3 in time order the code
builds the history [3, 2, 1] (newest first, no reversal), not the
oldest-first [1, 2, 3] the claim asserts. -/
theorem C7_counterexample :
    pm_history exStoreC7 = [3, 2, 1] ∧
    spec_pm_history_oldest_first exStoreC7 = [1, 2, 3] ∧
    (pm_history exStoreC7 == spec_pm_history_oldest_first exStoreC7) = false := by
  refine ⟨by with_unfolding_all rfl, by with_unfolding_all rfl, ?_⟩
  with_unfolding_all rfl

/-- C8 counterexample: with pm25 readings 10, 10, 10, 16 the history fed
to the anomaly detector is [16, 10, 10, 10] — it contains the value 16
under test — and the response reports no anomaly (16 is not above 1.5
times the inclusive mean 11.5), whereas against the claimed exclusive
baseline [10, 10, 10] the detector flags true (16 > 15). -/
theorem C8_counterexample :
    pm_history exStoreC8 = [16, 10, 10, 10] ∧
    spec_pm_history_excl exStoreC8 = [10, 10, 10] ∧
    (get_latest exStoreC8).map respAnomaly = Except.ok (some false) ∧
    detect_anomaly (some 16) (spec_pm_history_excl exStoreC8) = true := by
  exact ⟨by with_unfolding_all rfl, by with_unfolding_all rfl,
    by with_unfolding_all rfl, by with_unfolding_all rfl⟩

theorem getD_append_right_len (t u : List ℚ) (k : Nat) (d : ℚ) :
    (t ++ u).getD (t.length + k) d = u.getD k d := by
  rw [List.getD_eq_getElem?_getD, List.getElem?_append_right (by omega),
    List.getD_eq_getElem?_getD]
  congr 2
  omega

theorem predict_trend_last3 (t : List ℚ) (a b c : ℚ) :
    predict_trend (t ++ [a, b, c]) =
      if c > b ∧ b > a then "INCREASING"
      else if c < b ∧ b < a then "DECREASING"
      else "STABLE" := by
  have g2 : (t ++ [a, b, c]).getD (t.length + 2) 0 = c := by
    simpa using getD_append_right_len t [a, b, c] 2 0
  have g1 : (t ++ [a, b, c]).getD (t.length + 1) 0 = b := by
    simpa using getD_append_right_len t [a, b, c] 1 0
  have g0 : (t ++ [a, b, c]).getD t.length 0 = a := by
    simpa using getD_append_right_len t [a, b, c] 0 0
  have hlen : (t ++ [a, b, c]).length = t.length + 3 := by simp
  unfold predict_trend
  rw [hlen, if_neg (by omega)]
  rw [show t.length + 3 - 1 = t.length + 2 from by omega,
    show t.length + 3 - 2 = t.length + 1 from by omega,
    show t.length + 3 - 3 = t.length from by omega]
  rw [g2, g1, g0]

/-- C3 (amended): the code has no staleness check at all.  Whenever the
assessment produces a risk level it is one of SAFE, WARNING, DANGER —
never DISCONNECTED — and the advisory is determined solely by that risk
level; the age of the heartbeat timestamp plays no role (the evaluation
time is not even an input of `get_latest`). -/
theorem C3_no_disconnected (store : Store) (r : String)
    (hr : (get_latest store).map respRisk = Except.ok (some r)) :
    (r = "SAFE" ∨ r = "WARNING" ∨ r = "DANGER") ∧ r ≠ "DISCONNECTED" ∧
    (get_latest store).map respGuidance = Except.ok (some (ai_exit_guidance r)) := by
  cases hrev : store.reverse with
  | nil =>
    exfalso
    unfold get_latest at hr
    rw [hrev] at hr
    simp [respRisk, Except.map] at hr
  | cons row rest =>
    cases hpm : row.pm25 with
    | none =>
      exfalso
      unfold get_latest at hr
      rw [hrev] at hr
      simp [ai_risk_analysis, hpm, Except.map] at hr
    | some v =>
      have heq := get_latest_eq store row rest hrev v hpm
      rw [heq] at hr ⊢
      simp only [Except.map, respRisk, respGuidance, Except.ok.injEq,
        Option.some.injEq] at hr ⊢
      subst hr
      refine ⟨ai_risk_core_fst_mem v row.mq135 row.ph, ?_, rfl⟩
      rcases ai_risk_core_fst_mem v row.mq135 row.ph with h1 | h1 | h1 <;>
        rw [h1] <;> decide

/-- C3 witness: the single-reading safe store instantiates the amended
statement; its advisory is the plain SAFE guidance. -/
theorem C3_no_disconnected_witness :
    (get_latest exStoreC3).map respGuidance =
      Except.ok (some (ai_exit_guidance "SAFE")) :=
  (C3_no_disconnected exStoreC3 "SAFE" (by with_unfolding_all rfl)).2.2

/-- C4 (amended): whenever the newest reading has a non-null pm25 (so the
classifier call does not fail) the response snapshot is the newest row
verbatim: each channel keeps exactly the value of that row, null channels
included — older readings and defaults are never consulted. -/
theorem C4_snapshot_verbatim (store : Store) (row : Row) (rest : List Row)
    (hrev : store.reverse = row :: rest) (v : ℚ) (hpm : row.pm25 = some v) :
    (get_latest store).map respSensor =
      Except.ok (some { pm25 := row.pm25, mq135 := row.mq135, ph := row.ph,
                        heartRate := row.heartRate, spo2 := row.spo2 }) := by
  rw [get_latest_eq store row rest hrev v hpm]
  rfl

/-- C4 witness: the two-reading store instantiates the amended statement;
the null ph of the newest row survives into the snapshot. -/
theorem C4_snapshot_verbatim_witness :
    (get_latest exStoreC4).map respSensor =
      Except.ok (some { pm25 := some 20, mq135 := none, ph := none,
                        heartRate := none, spo2 := none }) :=
  C4_snapshot_verbatim exStoreC4
    { pm25 := some 20, mq135 := none, ph := none, heartRate := none,
      spo2 := none, time := 10 }
    [{ pm25 := some 10, mq135 := none, ph := some 6, heartRate := none,
       spo2 := none, time := 0 }]
    (by with_unfolding_all rfl) 20 rfl

/-- C5: the trend detector returns STABLE on every sequence shorter than
3; on any sequence ending in a, b, c it returns INCREASING iff the last
three values are strictly increasing, DECREASING iff strictly decreasing,
and STABLE in every other case (ties and non-monotonic windows
included). -/
theorem C5_trend_characterization :
    (∀ v : List ℚ, v.length < 3 → predict_trend v = "STABLE") ∧
    (∀ (t : List ℚ) (a b c : ℚ),
      (predict_trend (t ++ [a, b, c]) = "INCREASING" ↔ c > b ∧ b > a) ∧
      (predict_trend (t ++ [a, b, c]) = "DECREASING" ↔ c < b ∧ b < a) ∧
      (¬(c > b ∧ b > a) → ¬(c < b ∧ b < a) →
        predict_trend (t ++ [a, b, c]) = "STABLE")) := by
  constructor
  · intro v hv
    unfold predict_trend
    rw [if_pos hv]
  · intro t a b c
    simp only [predict_trend_last3]
    refine ⟨?_, ?_, ?_⟩ <;> split_ifs <;> simp_all <;> intro h2 <;> linarith
/-- C5 witness: a short sequence is STABLE and a strictly increasing
four-point sequence is INCREASING. -/
theorem C5_trend_witness :
    predict_trend [(1 : ℚ), 2] = "STABLE" ∧
    predict_trend ([(0 : ℚ)] ++ [1, 2, 3]) = "INCREASING" := by
  constructor
  · exact C5_trend_characterization.1 [1, 2] (by decide)
  · exact (C5_trend_characterization.2 [0] 1 2 3).1.mpr (by constructor <;> decide)

/-- C6: the anomaly detector is false on a history shorter than 3 and on
a null current value; with 3 or more points it is true iff the current
value strictly exceeds mean times 1.5; and with a zero mean any positive
current value is flagged. -/
theorem C6_anomaly_characterization :
    (∀ (c : Option ℚ) (h : List ℚ), h.length < 3 → detect_anomaly c h = false) ∧
    (∀ h : List ℚ, detect_anomaly none h = false) ∧
    (∀ (c : ℚ) (h : List ℚ), 3 ≤ h.length →
      (detect_anomaly (some c) h = true ↔ h.sum / (h.length : ℚ) * 1.5 < c)) ∧
    (∀ (c : ℚ) (h : List ℚ), 3 ≤ h.length → h.sum / (h.length : ℚ) = 0 →
      0 < c → detect_anomaly (some c) h = true) := by
  refine ⟨?_, ?_, ?_, ?_⟩
  · intro c h hh
    unfold detect_anomaly
    rw [if_pos hh]
  · intro h
    unfold detect_anomaly
    split <;> rfl
  · intro c h hh
    unfold detect_anomaly
    rw [if_neg (by omega)]
    simp [decide_eq_true_eq]
  · intro c h hh h0 hc
    unfold detect_anomaly
    rw [if_neg (by omega)]
    simp only [decide_eq_true_eq]
    show h.sum / (h.length : ℚ) * 1.5 < c
    rw [h0, zero_mul]
    exact hc

/-- C6 witness: a three-point history with mean 2 flags 4 (4 > 3) and a
one-point history flags nothing. -/
theorem C6_anomaly_witness :
    detect_anomaly (some 4) [(1 : ℚ), 2, 3] = true ∧
    detect_anomaly (some 1) [(2 : ℚ)] = false := by
  constructor
  · exact (C6_anomaly_characterization.2.2.1 4 [1, 2, 3] (by decide)).mpr
      (by norm_num [List.sum_cons, List.sum_nil])
  · exact C6_anomaly_characterization.1 (some 1) [2] (by decide)

/-- C7 (amended): the pm25 history holds at most 5 non-null values, but
in NEWEST-first order: it is the reversal of the oldest-first non-null
values of the chronologically last five readings — the code never
reverses the newest-first query result. -/
theorem C7_newest_first (store : Store) :
    (pm_history store).length ≤ 5 ∧
    pm_history store =
      ((store.drop (store.length - 5)).filterMap (fun r => r.pm25)).reverse := by
  unfold pm_history
  constructor
  · exact le_trans (List.length_filterMap_le _ _) (List.length_take_le _ _)
  · rw [List.take_reverse, List.filterMap_reverse]

/-- C8 (amended): whenever the newest reading has a non-null pm25, the
history handed to the anomaly detector starts with that very value: the
value under test is part of its own baseline, and the anomaly flag of the
response is computed against this inclusive window. -/
theorem C8_history_includes_current (store : Store) (row : Row) (rest : List Row)
    (hrev : store.reverse = row :: rest) (v : ℚ) (hpm : row.pm25 = some v) :
    ∃ t, pm_history store = v :: t ∧
      (get_latest store).map respAnomaly =
        Except.ok (some (detect_anomaly (some v) (v :: t))) := by
  have hist : pm_history store = v :: (rest.take 4).filterMap (fun r => r.pm25) := by
    unfold pm_history
    rw [hrev, show (5 : Nat) = 4 + 1 from rfl, List.take_succ_cons,
      List.filterMap_cons, hpm]
  refine ⟨(rest.take 4).filterMap (fun r => r.pm25), hist, ?_⟩
  rw [get_latest_eq store row rest hrev v hpm]
  simp only [Except.map, respAnomaly]
  rw [hpm, hist]

/-- C8 witness: the 10, 10, 10, 16 store instantiates the amended
statement with current value 16 heading its own baseline. -/
theorem C8_history_includes_current_witness :
    ∃ t, pm_history exStoreC8 = 16 :: t ∧
      (get_latest exStoreC8).map respAnomaly =
        Except.ok (some (detect_anomaly (some 16) (16 :: t))) :=
  C8_history_includes_current exStoreC8
    { pm25 := some 16, mq135 := none, ph := none, heartRate := none,
      spo2 := none, time := 3 }
    [{ pm25 := some 10, mq135 := none, ph := none, heartRate := none,
       spo2 := none, time := 2 },
     { pm25 := some 10, mq135 := none, ph := none, heartRate := none,
       spo2 := none, time := 1 },
     { pm25 := some 10, mq135 := none, ph := none, heartRate := none,
       spo2 := none, time := 0 }]
    (by with_unfolding_all rfl) 16 rfl

/-- C10: with a history of 3 or more points and any mean, every current
value strictly above mean times 1.5 is flagged; at the negative-mean
history -2, -2, -2 both the example current value -1 and the below-mean
current value -5/2 are flagged, since both exceed 1.5 times the mean
-3. -/
theorem C10_negative_mean :
    (∀ (c : ℚ) (h : List ℚ), 3 ≤ h.length → h.sum / (h.length : ℚ) < 0 →
      h.sum / (h.length : ℚ) * 1.5 < c → detect_anomaly (some c) h = true) ∧
    detect_anomaly (some (-1)) [(-2 : ℚ), -2, -2] = true ∧
    detect_anomaly (some (-5/2)) [(-2 : ℚ), -2, -2] = true ∧
    (-5/2 : ℚ) < -2 := by
  refine ⟨?_, ?_, ?_, ?_⟩
  · intro c h hh _ hlt
    unfold detect_anomaly
    rw [if_neg (by omega)]
    simpa using hlt
  · with_unfolding_all rfl
  · with_unfolding_all rfl
  · norm_num

/-- C10 witness: the example history -2, -2, -2 with current -1
instantiates the universal part. -/
theorem C10_negative_mean_witness :
    detect_anomaly (some (-1)) [(-2 : ℚ), -2, -2] = true :=
  C10_negative_mean.1 (-1) [-2, -2, -2] (by decide)
    (by norm_num [List.sum_cons, List.sum_nil])
    (by norm_num [List.sum_cons, List.sum_nil])

/-- C9: an empty store (no reading ever received) yields the distinct
no-data response, which carries no risk tier, no insights and no advisory
payload. -/
theorem C9_empty_store_no_data :
    get_latest [] = Except.ok (Response.noData "No data available") ∧
    (get_latest []).map respRisk = Except.ok none ∧
    (get_latest []).map respInsights = Except.ok none ∧
    (get_latest []).map respGuidance = Except.ok none := by
  exact ⟨rfl, rfl, rfl, rfl⟩

end AirWater
